import Mathlib

/-!
Shallow embedding of the Pong-style game loop from `src/main.cpp`
(Typhlochen/GameEngineeringAssignment2).  Positions, speeds and delta
times are modelled over `ℚ`; the `float` arithmetic of the source is pure
field arithmetic (additions, multiplications, `fabs`, comparisons), so the
rational model is the exact-arithmetic reading of the code.  The `z`
components of the glm vectors are dropped: they are always `0` and never
read by the game logic.  Field and function names follow the source.
-/

namespace Pong

inductive AppStatus where
  | RUNNING
  | TERMINATED
deriving DecidableEq, Repr

structure Vec2 where
  x : ℚ
  y : ℚ
deriving DecidableEq, Repr

/-- The mutable globals of `main.cpp` that the simulation reads or writes:
positions, movements, speeds, the app status, the AI toggle
`right_paddle_swtich` (sic), and the six "constraint" distance globals
(lines 91-96) recomputed at lines 268-274 of `update`. -/
structure GameState where
  g_app_status : AppStatus
  right_paddle_swtich : Int
  g_paddle_position : Vec2
  g_paddle_movement : Vec2
  g_right_paddle_position : Vec2
  g_right_paddle_movement : Vec2
  g_ball_position : Vec2
  g_ball_movement : Vec2
  g_paddle_speed : ℚ
  g_ball_speed : ℚ
  paddle_y_distance : ℚ
  paddle_right_y_distance : ℚ
  paddle_ball_x_distance : ℚ
  paddle_ball_y_distance : ℚ
  right_paddle_ball_x_distance : ℚ
  right_paddle_ball_y_distance : ℚ
deriving DecidableEq, Repr

/-- `INIT_PLAYER_1_SCALE = glm::vec3(0.8f, 1.2f, 0.0f)` (line 54). -/
def INIT_PLAYER_1_SCALE : Vec2 := ⟨4/5, 6/5⟩

/-- `INIT_PLAYER_2_SCALE = glm::vec3(1.0f, 1.0f, 0.0f)` (line 55). -/
def INIT_PLAYER_2_SCALE : Vec2 := ⟨1, 1⟩

/-- `INIT_BALL_SCALE = glm::vec3(0.25f, 0.25f, 0.0f)` (line 56). -/
def INIT_BALL_SCALE : Vec2 := ⟨1/4, 1/4⟩

/-- The integration phase of `update` (lines 254-266): ball then left
paddle move by `movement * speed * delta_time`; the right paddle either
follows its key-driven movement (`right_paddle_swtich == -1`) or tracks
the just-integrated ball vertically. -/
def integrate (s : GameState) (delta_time : ℚ) : GameState :=
  let s := { s with g_ball_position :=
    ⟨s.g_ball_position.x + s.g_ball_movement.x * s.g_ball_speed * delta_time,
     s.g_ball_position.y + s.g_ball_movement.y * s.g_ball_speed * delta_time⟩ }
  let s := { s with g_paddle_position :=
    ⟨s.g_paddle_position.x + s.g_paddle_movement.x * s.g_paddle_speed * delta_time,
     s.g_paddle_position.y + s.g_paddle_movement.y * s.g_paddle_speed * delta_time⟩ }
  if s.right_paddle_swtich = -1 then
    { s with g_right_paddle_position :=
      ⟨s.g_right_paddle_position.x + s.g_right_paddle_movement.x * s.g_paddle_speed * delta_time,
       s.g_right_paddle_position.y + s.g_right_paddle_movement.y * s.g_paddle_speed * delta_time⟩ }
  else if s.g_ball_position.y < s.g_right_paddle_position.y then
    { s with g_right_paddle_position :=
      ⟨s.g_right_paddle_position.x,
       s.g_right_paddle_position.y + (-1) * s.g_paddle_speed * delta_time⟩ }
  else if s.g_ball_position.y > s.g_right_paddle_position.y then
    { s with g_right_paddle_position :=
      ⟨s.g_right_paddle_position.x,
       s.g_right_paddle_position.y + 1 * s.g_paddle_speed * delta_time⟩ }
  else s

/-- `fabs`, the absolute value used by the distance calculations. -/
def fabs (q : ℚ) : ℚ :=
  if q < 0 then -q else q

/-- The distance-calculation phase of `update` (lines 268-274); `3.15`,
the scale sums halved, written as exact rationals. -/
def compute_distances (s : GameState) : GameState :=
  { s with
    paddle_y_distance := 63/20 - s.g_paddle_position.y
    paddle_right_y_distance := 63/20 - s.g_right_paddle_position.y
    paddle_ball_x_distance :=
      fabs (s.g_ball_position.x - s.g_paddle_position.x) - (INIT_BALL_SCALE.x + INIT_PLAYER_1_SCALE.x) / 2
    paddle_ball_y_distance :=
      fabs (s.g_ball_position.y - s.g_paddle_position.y) - (INIT_BALL_SCALE.y + INIT_PLAYER_1_SCALE.y) / 2
    right_paddle_ball_x_distance :=
      fabs (s.g_ball_position.x - s.g_right_paddle_position.x) - (INIT_BALL_SCALE.x + INIT_PLAYER_2_SCALE.x) / 2
    right_paddle_ball_y_distance :=
      fabs (s.g_ball_position.y - s.g_right_paddle_position.y) - (INIT_BALL_SCALE.y + INIT_PLAYER_2_SCALE.y) / 2 }

/-- The collision-resolution phase of `update` (lines 276-301):
`if` left paddle overlap `else if` right paddle overlap; `1.015 = 203/200`. -/
def collide (s : GameState) : GameState :=
  if s.paddle_ball_x_distance ≤ 0 ∧ s.paddle_ball_y_distance ≤ 0 then
    let s := { s with g_ball_movement := { s.g_ball_movement with x := 1 },
                      g_ball_speed := s.g_ball_speed * (203/200) }
    if s.g_paddle_movement.y < 0 then
      { s with g_ball_movement := { s.g_ball_movement with y := -1 } }
    else if s.g_paddle_movement.y > 0 then
      { s with g_ball_movement := { s.g_ball_movement with y := 1 } }
    else s
  else if s.right_paddle_ball_x_distance ≤ 0 ∧ s.right_paddle_ball_y_distance ≤ 0 then
    let s := { s with g_ball_movement := { s.g_ball_movement with x := -1 },
                      g_ball_speed := s.g_ball_speed * (203/200) }
    if s.g_right_paddle_movement.y < 0 then
      { s with g_ball_movement := { s.g_ball_movement with y := -1 } }
    else if s.g_right_paddle_movement.y > 0 then
      { s with g_ball_movement := { s.g_ball_movement with y := 1 } }
    else s
  else s

/-- The vertical-bounce phase of `update` (lines 302-305):
`g_ball_movement.y *= -1` when `|y| ≥ 3.5`. -/
def bounce (s : GameState) : GameState :=
  if s.g_ball_position.y ≥ 7/2 ∨ s.g_ball_position.y ≤ -(7/2) then
    { s with g_ball_movement := { s.g_ball_movement with y := s.g_ball_movement.y * (-1) } }
  else s

/-- The termination phase of `update` (lines 326-329). -/
def termination_check (s : GameState) : GameState :=
  if s.g_ball_position.x ≥ 5 ∨ s.g_ball_position.x ≤ -5 then
    { s with g_app_status := AppStatus.TERMINATED }
  else s

/-- `update()` (lines 246-330) for a given `delta_time`; the matrix
rebuilding (lines 307-323) touches no simulation state and is omitted. -/
def update (s : GameState) (delta_time : ℚ) : GameState :=
  termination_check (bounce (collide (compute_distances (integrate s delta_time))))

/-- The keys `process_input` distinguishes; `other` stands for every key
the handler ignores. -/
inductive Key where
  | w
  | s
  | up
  | down
  | t
  | p
  | other
deriving DecidableEq, Repr

/-- One SDL event as seen by the poll loop of `process_input`
(lines 188-204): a quit/window-close event, a key-down, or any other
event the loop ignores. -/
inductive Event where
  | quit
  | keyDown (k : Key)
  | otherEvent
deriving DecidableEq, Repr

/-- The per-frame input: the polled event queue and the held-key state
returned by `SDL_GetKeyboardState`. -/
structure InputState where
  events : List Event
  held : Key → Bool

/-- One iteration of the event poll loop (lines 188-204): quit terminates,
`T` key-down flips `right_paddle_swtich`, `P` key-down launches the ball
leftwards (`g_ball_movement.x = -1`). -/
def process_event (s : GameState) (e : Event) : GameState :=
  match e with
  | Event.quit => { s with g_app_status := AppStatus.TERMINATED }
  | Event.keyDown Key.t => { s with right_paddle_swtich := s.right_paddle_swtich * (-1) }
  | Event.keyDown Key.p => { s with g_ball_movement := { s.g_ball_movement with x := -1 } }
  | _ => s

/-- The held-key handling of `process_input` (lines 205-240): both
movements are zeroed, then each held movement key sets the corresponding
`y` component, overridden back to `0` when the stored distance-to-bound
global says the paddle is at the bound (`6.3 = 63/10`). -/
def process_held (s : GameState) (held : Key → Bool) : GameState :=
  let s := { s with g_paddle_movement := ⟨0, 0⟩, g_right_paddle_movement := ⟨0, 0⟩ }
  let s := if held Key.w then
      { s with g_paddle_movement :=
        { s.g_paddle_movement with y := if s.paddle_y_distance ≤ 0 then 0 else 1 } }
    else s
  let s := if held Key.s then
      { s with g_paddle_movement :=
        { s.g_paddle_movement with y := if s.paddle_y_distance ≥ 63/10 then 0 else -1 } }
    else s
  let s := if held Key.up then
      { s with g_right_paddle_movement :=
        { s.g_right_paddle_movement with y := if s.paddle_right_y_distance ≤ 0 then 0 else 1 } }
    else s
  let s := if held Key.down then
      { s with g_right_paddle_movement :=
        { s.g_right_paddle_movement with y := if s.paddle_right_y_distance ≥ 63/10 then 0 else -1 } }
    else s
  s

/-- `process_input()` (lines 185-243): drain the event queue, then apply
the held-key movement rules. -/
def process_input (s : GameState) (input : InputState) : GameState :=
  process_held (input.events.foldl process_event s) input.held

/-- The input and delta time of one frame. -/
structure Frame where
  input : InputState
  delta_time : ℚ

/-- One iteration of the main loop's simulation part (lines 384-389):
`process_input(); update();` (`render()` touches no simulation state). -/
def step (s : GameState) (f : Frame) : GameState :=
  update (process_input s f.input) f.delta_time

/-- Run the main loop over a list of frames. -/
def run (s : GameState) : List Frame → GameState
  | [] => s
  | f :: fs => run (step s f) fs

/-- The initial values of the globals (lines 59, 75, 80-96). -/
def initial_state : GameState where
  g_app_status := AppStatus.RUNNING
  right_paddle_swtich := -1
  g_paddle_position := ⟨-4, 0⟩
  g_paddle_movement := ⟨0, 0⟩
  g_right_paddle_position := ⟨4, 0⟩
  g_right_paddle_movement := ⟨0, 0⟩
  g_ball_position := ⟨0, 0⟩
  g_ball_movement := ⟨0, 0⟩
  g_paddle_speed := 3
  g_ball_speed := 3
  paddle_y_distance := 0
  paddle_right_y_distance := 0
  paddle_ball_x_distance := 0
  paddle_ball_y_distance := 0
  right_paddle_ball_x_distance := 0
  right_paddle_ball_y_distance := 0

/-- Condition of the left-paddle collision branch (line 276). -/
def left_collision_fires (s : GameState) : Bool :=
  decide (s.paddle_ball_x_distance ≤ 0 ∧ s.paddle_ball_y_distance ≤ 0)

/-- Condition of the right-paddle collision branch (line 289). -/
def right_collision_condition (s : GameState) : Bool :=
  decide (s.right_paddle_ball_x_distance ≤ 0 ∧ s.right_paddle_ball_y_distance ≤ 0)

/-- The right-paddle branch actually runs only when the left one did not
(`else if`). -/
def right_branch_taken (s : GameState) : Bool :=
  !(left_collision_fires s) && right_collision_condition s

/-- Some collision-resolution branch runs this frame. -/
def some_collision_fires (s : GameState) : Bool :=
  left_collision_fires s || right_collision_condition s

/-- The state handed to the collision-resolution phase within `step`. -/
def pre_collide (s : GameState) (f : Frame) : GameState :=
  compute_distances (integrate (process_input s f.input) f.delta_time)

/-- Number of frames of a run in which a paddle-collision branch fires. -/
def collision_count (s : GameState) : List Frame → Nat
  | [] => 0
  | f :: fs =>
    (if some_collision_fires (pre_collide s f) then 1 else 0) + collision_count (step s f) fs

/-! ### Per-phase bookkeeping lemmas -/

lemma integrate_g_ball_speed (s : GameState) (d : ℚ) :
    (integrate s d).g_ball_speed = s.g_ball_speed := by
  simp only [integrate]
  split_ifs <;> rfl

lemma integrate_g_ball_movement (s : GameState) (d : ℚ) :
    (integrate s d).g_ball_movement = s.g_ball_movement := by
  simp only [integrate]
  split_ifs <;> rfl

lemma integrate_g_paddle_movement (s : GameState) (d : ℚ) :
    (integrate s d).g_paddle_movement = s.g_paddle_movement := by
  simp only [integrate]
  split_ifs <;> rfl

lemma integrate_g_right_paddle_movement (s : GameState) (d : ℚ) :
    (integrate s d).g_right_paddle_movement = s.g_right_paddle_movement := by
  simp only [integrate]
  split_ifs <;> rfl

lemma integrate_g_app_status (s : GameState) (d : ℚ) :
    (integrate s d).g_app_status = s.g_app_status := by
  simp only [integrate]
  split_ifs <;> rfl

lemma integrate_g_ball_position (s : GameState) (d : ℚ) :
    (integrate s d).g_ball_position =
      ⟨s.g_ball_position.x + s.g_ball_movement.x * s.g_ball_speed * d,
       s.g_ball_position.y + s.g_ball_movement.y * s.g_ball_speed * d⟩ := by
  simp only [integrate]
  split_ifs <;> rfl

lemma integrate_g_paddle_position (s : GameState) (d : ℚ) :
    (integrate s d).g_paddle_position =
      ⟨s.g_paddle_position.x + s.g_paddle_movement.x * s.g_paddle_speed * d,
       s.g_paddle_position.y + s.g_paddle_movement.y * s.g_paddle_speed * d⟩ := by
  simp only [integrate]
  split_ifs <;> rfl

lemma collide_g_ball_position (s : GameState) :
    (collide s).g_ball_position = s.g_ball_position := by
  simp only [collide]
  split_ifs <;> rfl

lemma collide_g_paddle_position (s : GameState) :
    (collide s).g_paddle_position = s.g_paddle_position := by
  simp only [collide]
  split_ifs <;> rfl

lemma collide_g_right_paddle_position (s : GameState) :
    (collide s).g_right_paddle_position = s.g_right_paddle_position := by
  simp only [collide]
  split_ifs <;> rfl

lemma collide_g_app_status (s : GameState) :
    (collide s).g_app_status = s.g_app_status := by
  simp only [collide]
  split_ifs <;> rfl

lemma collide_paddle_y_distance (s : GameState) :
    (collide s).paddle_y_distance = s.paddle_y_distance := by
  simp only [collide]
  split_ifs <;> rfl

lemma collide_paddle_right_y_distance (s : GameState) :
    (collide s).paddle_right_y_distance = s.paddle_right_y_distance := by
  simp only [collide]
  split_ifs <;> rfl

lemma collide_g_ball_speed (s : GameState) :
    (collide s).g_ball_speed =
      if some_collision_fires s then s.g_ball_speed * (203/200) else s.g_ball_speed := by
  simp only [some_collision_fires, left_collision_fires, right_collision_condition,
    Bool.or_eq_true, decide_eq_true_eq]
  by_cases h1 : s.paddle_ball_x_distance ≤ 0 ∧ s.paddle_ball_y_distance ≤ 0
  · rw [if_pos (Or.inl h1)]
    simp only [collide, if_pos h1]
    split_ifs <;> rfl
  · by_cases h2 : s.right_paddle_ball_x_distance ≤ 0 ∧ s.right_paddle_ball_y_distance ≤ 0
    · rw [if_pos (Or.inr h2)]
      simp only [collide, if_neg h1, if_pos h2]
      split_ifs <;> rfl
    · rw [if_neg (by tauto)]
      simp only [collide, if_neg h1, if_neg h2]

lemma bounce_g_ball_position (s : GameState) :
    (bounce s).g_ball_position = s.g_ball_position := by
  simp only [bounce]
  split_ifs <;> rfl

lemma bounce_g_paddle_position (s : GameState) :
    (bounce s).g_paddle_position = s.g_paddle_position := by
  simp only [bounce]
  split_ifs <;> rfl

lemma bounce_g_right_paddle_position (s : GameState) :
    (bounce s).g_right_paddle_position = s.g_right_paddle_position := by
  simp only [bounce]
  split_ifs <;> rfl

lemma bounce_g_ball_speed (s : GameState) :
    (bounce s).g_ball_speed = s.g_ball_speed := by
  simp only [bounce]
  split_ifs <;> rfl

lemma bounce_g_app_status (s : GameState) :
    (bounce s).g_app_status = s.g_app_status := by
  simp only [bounce]
  split_ifs <;> rfl

lemma bounce_paddle_y_distance (s : GameState) :
    (bounce s).paddle_y_distance = s.paddle_y_distance := by
  simp only [bounce]
  split_ifs <;> rfl

lemma bounce_paddle_right_y_distance (s : GameState) :
    (bounce s).paddle_right_y_distance = s.paddle_right_y_distance := by
  simp only [bounce]
  split_ifs <;> rfl

lemma termination_check_g_ball_position (s : GameState) :
    (termination_check s).g_ball_position = s.g_ball_position := by
  simp only [termination_check]
  split_ifs <;> rfl

lemma termination_check_g_paddle_position (s : GameState) :
    (termination_check s).g_paddle_position = s.g_paddle_position := by
  simp only [termination_check]
  split_ifs <;> rfl

lemma termination_check_g_right_paddle_position (s : GameState) :
    (termination_check s).g_right_paddle_position = s.g_right_paddle_position := by
  simp only [termination_check]
  split_ifs <;> rfl

lemma termination_check_g_ball_speed (s : GameState) :
    (termination_check s).g_ball_speed = s.g_ball_speed := by
  simp only [termination_check]
  split_ifs <;> rfl

lemma termination_check_g_ball_movement (s : GameState) :
    (termination_check s).g_ball_movement = s.g_ball_movement := by
  simp only [termination_check]
  split_ifs <;> rfl

lemma termination_check_paddle_y_distance (s : GameState) :
    (termination_check s).paddle_y_distance = s.paddle_y_distance := by
  simp only [termination_check]
  split_ifs <;> rfl

lemma termination_check_paddle_right_y_distance (s : GameState) :
    (termination_check s).paddle_right_y_distance = s.paddle_right_y_distance := by
  simp only [termination_check]
  split_ifs <;> rfl

lemma process_event_g_ball_speed (s : GameState) (e : Event) :
    (process_event s e).g_ball_speed = s.g_ball_speed := by
  cases e with
  | quit => rfl
  | keyDown k => cases k <;> rfl
  | otherEvent => rfl

lemma process_event_g_ball_movement_y (s : GameState) (e : Event) :
    (process_event s e).g_ball_movement.y = s.g_ball_movement.y := by
  cases e with
  | quit => rfl
  | keyDown k => cases k <;> rfl
  | otherEvent => rfl

lemma process_event_paddle_y_distance (s : GameState) (e : Event) :
    (process_event s e).paddle_y_distance = s.paddle_y_distance := by
  cases e with
  | quit => rfl
  | keyDown k => cases k <;> rfl
  | otherEvent => rfl

lemma process_event_paddle_right_y_distance (s : GameState) (e : Event) :
    (process_event s e).paddle_right_y_distance = s.paddle_right_y_distance := by
  cases e with
  | quit => rfl
  | keyDown k => cases k <;> rfl
  | otherEvent => rfl

lemma foldl_process_event_g_ball_speed (l : List Event) :
    ∀ s : GameState, (l.foldl process_event s).g_ball_speed = s.g_ball_speed := by
  induction l with
  | nil => intro s; rfl
  | cons e l ih =>
    intro s
    rw [List.foldl_cons, ih, process_event_g_ball_speed]

lemma foldl_process_event_g_ball_movement_y (l : List Event) :
    ∀ s : GameState, (l.foldl process_event s).g_ball_movement.y = s.g_ball_movement.y := by
  induction l with
  | nil => intro s; rfl
  | cons e l ih =>
    intro s
    rw [List.foldl_cons, ih, process_event_g_ball_movement_y]

lemma foldl_process_event_paddle_y_distance (l : List Event) :
    ∀ s : GameState, (l.foldl process_event s).paddle_y_distance = s.paddle_y_distance := by
  induction l with
  | nil => intro s; rfl
  | cons e l ih =>
    intro s
    rw [List.foldl_cons, ih, process_event_paddle_y_distance]

lemma foldl_process_event_paddle_right_y_distance (l : List Event) :
    ∀ s : GameState,
      (l.foldl process_event s).paddle_right_y_distance = s.paddle_right_y_distance := by
  induction l with
  | nil => intro s; rfl
  | cons e l ih =>
    intro s
    rw [List.foldl_cons, ih, process_event_paddle_right_y_distance]

lemma process_held_g_paddle_movement (s : GameState) (held : Key → Bool) :
    (process_held s held).g_paddle_movement =
      if held Key.s then ⟨0, if s.paddle_y_distance ≥ 63/10 then 0 else -1⟩
      else if held Key.w then ⟨0, if s.paddle_y_distance ≤ 0 then 0 else 1⟩
      else ⟨0, 0⟩ := by
  simp only [process_held]
  split_ifs <;> rfl

lemma process_held_g_right_paddle_movement (s : GameState) (held : Key → Bool) :
    (process_held s held).g_right_paddle_movement =
      if held Key.down then ⟨0, if s.paddle_right_y_distance ≥ 63/10 then 0 else -1⟩
      else if held Key.up then ⟨0, if s.paddle_right_y_distance ≤ 0 then 0 else 1⟩
      else ⟨0, 0⟩ := by
  simp only [process_held]
  split_ifs <;> rfl

lemma process_held_g_ball_speed (s : GameState) (held : Key → Bool) :
    (process_held s held).g_ball_speed = s.g_ball_speed := by
  simp only [process_held]
  split_ifs <;> rfl

lemma process_held_g_ball_movement (s : GameState) (held : Key → Bool) :
    (process_held s held).g_ball_movement = s.g_ball_movement := by
  simp only [process_held]
  split_ifs <;> rfl

/-- The held-key handler reads only the stored distance globals and the
held-key booleans. -/
lemma process_input_g_paddle_movement (s : GameState) (input : InputState) :
    (process_input s input).g_paddle_movement =
      if input.held Key.s then ⟨0, if s.paddle_y_distance ≥ 63/10 then 0 else -1⟩
      else if input.held Key.w then ⟨0, if s.paddle_y_distance ≤ 0 then 0 else 1⟩
      else ⟨0, 0⟩ := by
  rw [process_input, process_held_g_paddle_movement,
    foldl_process_event_paddle_y_distance]

lemma process_input_g_right_paddle_movement (s : GameState) (input : InputState) :
    (process_input s input).g_right_paddle_movement =
      if input.held Key.down then ⟨0, if s.paddle_right_y_distance ≥ 63/10 then 0 else -1⟩
      else if input.held Key.up then ⟨0, if s.paddle_right_y_distance ≤ 0 then 0 else 1⟩
      else ⟨0, 0⟩ := by
  rw [process_input, process_held_g_right_paddle_movement,
    foldl_process_event_paddle_right_y_distance]

lemma process_input_g_ball_speed (s : GameState) (input : InputState) :
    (process_input s input).g_ball_speed = s.g_ball_speed := by
  rw [process_input, process_held_g_ball_speed, foldl_process_event_g_ball_speed]

lemma process_input_g_ball_movement_y (s : GameState) (input : InputState) :
    (process_input s input).g_ball_movement.y = s.g_ball_movement.y := by
  rw [process_input, process_held_g_ball_movement, foldl_process_event_g_ball_movement_y]

lemma compute_distances_g_ball_speed (s : GameState) :
    (compute_distances s).g_ball_speed = s.g_ball_speed := rfl

lemma compute_distances_g_ball_position (s : GameState) :
    (compute_distances s).g_ball_position = s.g_ball_position := rfl

lemma compute_distances_g_paddle_position (s : GameState) :
    (compute_distances s).g_paddle_position = s.g_paddle_position := rfl

lemma compute_distances_g_right_paddle_position (s : GameState) :
    (compute_distances s).g_right_paddle_position = s.g_right_paddle_position := rfl

lemma compute_distances_g_app_status (s : GameState) :
    (compute_distances s).g_app_status = s.g_app_status := rfl

lemma compute_distances_paddle_y_distance (s : GameState) :
    (compute_distances s).paddle_y_distance = 63/20 - s.g_paddle_position.y := rfl

lemma compute_distances_paddle_right_y_distance (s : GameState) :
    (compute_distances s).paddle_right_y_distance = 63/20 - s.g_right_paddle_position.y := rfl

lemma step_as_phases (s : GameState) (f : Frame) :
    step s f = termination_check (bounce (collide (pre_collide s f))) := rfl

lemma pre_collide_g_ball_speed (s : GameState) (f : Frame) :
    (pre_collide s f).g_ball_speed = s.g_ball_speed := by
  rw [pre_collide, compute_distances_g_ball_speed, integrate_g_ball_speed,
    process_input_g_ball_speed]

lemma step_g_ball_speed (s : GameState) (f : Frame) :
    (step s f).g_ball_speed =
      if some_collision_fires (pre_collide s f) then s.g_ball_speed * (203/200)
      else s.g_ball_speed := by
  rw [step_as_phases, termination_check_g_ball_speed, bounce_g_ball_speed,
    collide_g_ball_speed, pre_collide_g_ball_speed]

lemma run_nil (s : GameState) : run s [] = s := rfl

lemma run_cons (s : GameState) (f : Frame) (fs : List Frame) :
    run s (f :: fs) = run (step s f) fs := rfl

lemma collision_count_nil (s : GameState) : collision_count s [] = 0 := rfl

lemma collision_count_cons (s : GameState) (f : Frame) (fs : List Frame) :
    collision_count s (f :: fs) =
      (if some_collision_fires (pre_collide s f) then 1 else 0)
        + collision_count (step s f) fs := rfl

lemma run_append (fs : List Frame) :
    ∀ (s : GameState) (f : Frame), run s (fs ++ [f]) = step (run s fs) f := by
  induction fs with
  | nil => intro s f; rfl
  | cons g gs ih =>
    intro s f
    rw [List.cons_append, run_cons, run_cons, ih]

lemma run_g_ball_speed (fs : List Frame) :
    ∀ s : GameState,
      (run s fs).g_ball_speed = s.g_ball_speed * (203/200) ^ collision_count s fs := by
  induction fs with
  | nil => intro s; rw [run_nil, collision_count_nil, pow_zero, mul_one]
  | cons f fs ih =>
    intro s
    rw [run_cons, collision_count_cons, ih (step s f), step_g_ball_speed]
    by_cases h : some_collision_fires (pre_collide s f) = true
    · rw [if_pos h, if_pos h, pow_add, pow_one]
      ring
    · rw [if_neg h, if_neg h, zero_add]

lemma process_held_g_app_status (s : GameState) (held : Key → Bool) :
    (process_held s held).g_app_status = s.g_app_status := by
  simp only [process_held]
  split_ifs <;> rfl

lemma process_event_terminated (s : GameState) (e : Event)
    (h : s.g_app_status = AppStatus.TERMINATED) :
    (process_event s e).g_app_status = AppStatus.TERMINATED := by
  cases e with
  | quit => rfl
  | keyDown k => cases k <;> exact h
  | otherEvent => exact h

lemma foldl_process_event_terminated (l : List Event) :
    ∀ s : GameState, s.g_app_status = AppStatus.TERMINATED →
      (l.foldl process_event s).g_app_status = AppStatus.TERMINATED := by
  induction l with
  | nil => intro s h; exact h
  | cons e l ih =>
    intro s h
    rw [List.foldl_cons]
    exact ih _ (process_event_terminated s e h)

lemma termination_check_terminated (s : GameState)
    (h : s.g_app_status = AppStatus.TERMINATED) :
    (termination_check s).g_app_status = AppStatus.TERMINATED := by
  simp only [termination_check]
  split_ifs
  · rfl
  · exact h

lemma step_terminated (s : GameState) (f : Frame)
    (h : s.g_app_status = AppStatus.TERMINATED) :
    (step s f).g_app_status = AppStatus.TERMINATED := by
  rw [step_as_phases]
  apply termination_check_terminated
  rw [bounce_g_app_status, collide_g_app_status, pre_collide, compute_distances_g_app_status,
    integrate_g_app_status, process_input, process_held_g_app_status]
  exact foldl_process_event_terminated _ _ h

/-! ### Concrete states used by witnesses and counterexamples -/

/-- The ball placed at (−3.65, 0) moving left, everything else initial. -/
def s_scenario_365 : GameState :=
  { initial_state with g_ball_position := ⟨-73/20, 0⟩, g_ball_movement := ⟨-1, 0⟩ }

/-- The ball placed at (−3.6, 0) moving left, everything else initial. -/
def s_scenario_36 : GameState :=
  { initial_state with g_ball_position := ⟨-18/5, 0⟩, g_ball_movement := ⟨-1, 0⟩ }

/-- A frame with no events, no keys held and zero delta time. -/
def frame_idle : Frame := ⟨⟨[], fun _ => false⟩, 0⟩

/-- A state whose stored left-paddle/ball gaps are negative and whose left
paddle is moving up. -/
def collide_left_witness : GameState :=
  { initial_state with
      g_paddle_movement := ⟨0, 1⟩
      paddle_ball_x_distance := -(1/10)
      paddle_ball_y_distance := -(1/10) }

/-- A state whose stored gaps report overlap with both paddles at once. -/
def both_overlap_state : GameState :=
  { initial_state with
      paddle_ball_x_distance := -1
      paddle_ball_y_distance := -1
      right_paddle_ball_x_distance := -1
      right_paddle_ball_y_distance := -1 }

/-! ### The claims -/

/-- Claim C1: along any execution from the initial state, the ball speed
after a run equals the initial 3.0 multiplied by 1.015 raised to the number
of frames in which a paddle-collision branch fired, and the speed never
decreases from one simulation step to the next. -/
theorem claim_C1_ball_speed_ramp_and_monotone :
    (∀ fs : List Frame,
        (run initial_state fs).g_ball_speed =
          3 * (203/200) ^ collision_count initial_state fs) ∧
    (∀ (fs : List Frame) (f : Frame),
        (run initial_state fs).g_ball_speed ≤
          (run initial_state (fs ++ [f])).g_ball_speed) := by
  have hforall : ∀ fs : List Frame,
      (run initial_state fs).g_ball_speed =
        3 * (203/200) ^ collision_count initial_state fs := by
    intro fs
    rw [run_g_ball_speed]
    norm_num [initial_state]
  refine ⟨hforall, ?_⟩
  intro fs f
  rw [run_append, step_g_ball_speed]
  by_cases h : some_collision_fires (pre_collide (run initial_state fs) f) = true
  · rw [if_pos h]
    have hpos : (0:ℚ) ≤ (run initial_state fs).g_ball_speed := by
      rw [hforall]
      positivity
    nlinarith [hpos]
  · rw [if_neg h]

/-- Claim C2: when the left-paddle overlap test fires, the collision branch
sets the ball x-direction to +1, multiplies the speed by 1.015 and copies a
non-zero paddle movement direction into the ball y-direction, leaving it
unchanged for a still paddle; the right-paddle branch (reached only when
the left test fails) is the mirror with x-direction −1. -/
theorem claim_C2_paddle_collision_response (s : GameState)
    (hmL : s.g_paddle_movement.y = -1 ∨ s.g_paddle_movement.y = 0 ∨ s.g_paddle_movement.y = 1)
    (hmR : s.g_right_paddle_movement.y = -1 ∨ s.g_right_paddle_movement.y = 0 ∨
      s.g_right_paddle_movement.y = 1) :
    (s.paddle_ball_x_distance ≤ 0 → s.paddle_ball_y_distance ≤ 0 →
      (collide s).g_ball_movement.x = 1 ∧
      (collide s).g_ball_speed = s.g_ball_speed * (203/200) ∧
      (s.g_paddle_movement.y ≠ 0 → (collide s).g_ball_movement.y = s.g_paddle_movement.y) ∧
      (s.g_paddle_movement.y = 0 → (collide s).g_ball_movement.y = s.g_ball_movement.y)) ∧
    (¬(s.paddle_ball_x_distance ≤ 0 ∧ s.paddle_ball_y_distance ≤ 0) →
      s.right_paddle_ball_x_distance ≤ 0 → s.right_paddle_ball_y_distance ≤ 0 →
      (collide s).g_ball_movement.x = -1 ∧
      (collide s).g_ball_speed = s.g_ball_speed * (203/200) ∧
      (s.g_right_paddle_movement.y ≠ 0 →
        (collide s).g_ball_movement.y = s.g_right_paddle_movement.y) ∧
      (s.g_right_paddle_movement.y = 0 →
        (collide s).g_ball_movement.y = s.g_ball_movement.y)) := by
  constructor
  · intro hx hy
    rcases hmL with h | h | h <;>
      norm_num [collide, if_pos (And.intro hx hy), h]
  · intro hnl hx hy
    rcases hmR with h | h | h <;>
      norm_num [collide, if_neg hnl, if_pos (And.intro hx hy), h]

unseal Rat.add Rat.sub Rat.mul Rat.inv in
/-- Witness for claim C2 at a concrete colliding state with the left paddle
moving up. -/
theorem claim_C2_witness :
    collide_left_witness.paddle_ball_x_distance ≤ 0 ∧
    collide_left_witness.paddle_ball_y_distance ≤ 0 ∧
    (collide collide_left_witness).g_ball_movement.x = 1 ∧
    (collide collide_left_witness).g_ball_movement.y = 1 := by
  have h1 : collide_left_witness.paddle_ball_x_distance ≤ 0 := by decide
  have h2 : collide_left_witness.paddle_ball_y_distance ≤ 0 := by decide
  have h := (claim_C2_paddle_collision_response collide_left_witness
      (Or.inr (Or.inr rfl)) (Or.inr (Or.inl rfl))).1 h1 h2
  exact ⟨h1, h2, h.1, (h.2.2.1 (by decide)).trans rfl⟩

unseal Rat.add Rat.sub Rat.mul Rat.inv in
/-- Counterexample to claim C3: with the left paddle at (−4, 0) and the ball
at (−3.65, 0), the horizontal gap the code computes is −7/40 = −0.175 (the
code subtracts the half-width sum (0.25 + 0.8)/2 = 0.525, not 0.2625), so
the left-paddle collision already fires there: after one zero-delta step
the ball x-direction is +1 and the speed is 3 × 1.015, not unchanged. -/
theorem claim_C3_counterexample :
    (compute_distances (integrate s_scenario_365 0)).paddle_ball_x_distance = -(7/40) ∧
    left_collision_fires (compute_distances (integrate s_scenario_365 0)) = true ∧
    (update s_scenario_365 0).g_ball_movement.x = 1 ∧
    (update s_scenario_365 0).g_ball_speed = 3 * (203/200) := by
  decide

unseal Rat.add Rat.sub Rat.mul Rat.inv in
/-- Claim C3 as amended: with the left paddle at (−4, 0), the horizontal gap
is |ball.x − paddle.x| − (0.25 + 0.8)/2, so it is already ≤ 0 at ball
x = −3.65 (gap −7/40) as well as at x = −3.6 (gap −1/8); in both cases one
step fires the left-paddle collision, setting the ball x-direction to +1
and multiplying the speed by 1.015. -/
theorem claim_C3_amended_collision_fires :
    ((compute_distances (integrate s_scenario_365 0)).paddle_ball_x_distance = -(7/40) ∧
     (update s_scenario_365 0).g_ball_movement.x = 1 ∧
     (update s_scenario_365 0).g_ball_speed = 3 * (203/200)) ∧
    ((compute_distances (integrate s_scenario_36 0)).paddle_ball_x_distance = -(1/8) ∧
     (update s_scenario_36 0).g_ball_movement.x = 1 ∧
     (update s_scenario_36 0).g_ball_speed = 3 * (203/200)) := by
  decide

unseal Rat.add Rat.sub Rat.mul Rat.inv in
/-- Counterexample to claim C4: at the first step from the initial state
(no input, zero delta) neither collision branch fires, so it is not the
case that exactly one of the two branches is taken in every step; the
collision phase leaves the state unchanged there. -/
theorem claim_C4_counterexample :
    left_collision_fires (pre_collide initial_state frame_idle) = false ∧
    right_branch_taken (pre_collide initial_state frame_idle) = false ∧
    collide (pre_collide initial_state frame_idle) = pre_collide initial_state frame_idle := by
  decide

/-- Claim C4 as amended: at most one of the two collision branches runs in
a step (the right branch requires the left test to have failed), and when
both overlap conditions hold at once only the left-paddle response applies:
the ball x-direction becomes +1, not −1, and the speed is multiplied once. -/
theorem claim_C4_amended_at_most_one_branch (s : GameState) :
    ¬(left_collision_fires s = true ∧ right_branch_taken s = true) ∧
    (s.paddle_ball_x_distance ≤ 0 → s.paddle_ball_y_distance ≤ 0 →
      s.right_paddle_ball_x_distance ≤ 0 → s.right_paddle_ball_y_distance ≤ 0 →
      (collide s).g_ball_movement.x = 1 ∧
      (collide s).g_ball_speed = s.g_ball_speed * (203/200)) := by
  constructor
  · rintro ⟨h1, h2⟩
    rw [right_branch_taken, h1] at h2
    simp at h2
  · intro h1 h2 h3 h4
    simp only [collide, if_pos (And.intro h1 h2)]
    split_ifs <;> exact ⟨rfl, rfl⟩

unseal Rat.add Rat.sub Rat.mul Rat.inv in
/-- Witness for claim C4 at a state whose stored gaps overlap both paddles:
the left response wins. -/
theorem claim_C4_witness :
    both_overlap_state.paddle_ball_x_distance ≤ 0 ∧
    both_overlap_state.paddle_ball_y_distance ≤ 0 ∧
    both_overlap_state.right_paddle_ball_x_distance ≤ 0 ∧
    both_overlap_state.right_paddle_ball_y_distance ≤ 0 ∧
    (collide both_overlap_state).g_ball_movement.x = 1 := by
  refine ⟨by decide, by decide, by decide, by decide, ?_⟩
  exact ((claim_C4_amended_at_most_one_branch both_overlap_state).2
    (by decide) (by decide) (by decide) (by decide)).1

/-- Claim C5: when the ball's post-integration y-position reaches or
exceeds 3.5, or reaches or falls below −3.5, the step inverts the ball
y-direction and leaves the ball position unclamped. -/
theorem claim_C5_vertical_bounce (s : GameState) (delta_time : ℚ)
    (h : (integrate s delta_time).g_ball_position.y ≥ 7/2 ∨
         (integrate s delta_time).g_ball_position.y ≤ -(7/2)) :
    (update s delta_time).g_ball_movement.y =
      -((collide (compute_distances (integrate s delta_time))).g_ball_movement.y) ∧
    (update s delta_time).g_ball_position = (integrate s delta_time).g_ball_position := by
  have hpos : (collide (compute_distances (integrate s delta_time))).g_ball_position
      = (integrate s delta_time).g_ball_position := by
    rw [collide_g_ball_position, compute_distances_g_ball_position]
  have hcond : (collide (compute_distances (integrate s delta_time))).g_ball_position.y ≥ 7/2 ∨
      (collide (compute_distances (integrate s delta_time))).g_ball_position.y ≤ -(7/2) := by
    rw [hpos]
    exact h
  constructor
  · rw [update, termination_check_g_ball_movement, bounce, if_pos hcond]
    show (collide (compute_distances (integrate s delta_time))).g_ball_movement.y * (-1) = _
    ring
  · rw [update, termination_check_g_ball_position, bounce_g_ball_position, hpos]

/-- The ball on the upper bounce bound moving straight up. -/
def bounce_witness_state : GameState :=
  { initial_state with g_ball_position := ⟨0, 18/5⟩, g_ball_movement := ⟨0, 1⟩ }

unseal Rat.add Rat.sub Rat.mul Rat.inv in
/-- Witness for claim C5: the ball at y = 3.6 with y-direction +1 has
y-direction −1 after one step. -/
theorem claim_C5_witness :
    (integrate bounce_witness_state 0).g_ball_position.y ≥ 7/2 ∧
    (update bounce_witness_state 0).g_ball_movement.y = -1 := by
  have h : (integrate bounce_witness_state 0).g_ball_position.y ≥ 7/2 := by decide
  refine ⟨h, ?_⟩
  exact ((claim_C5_vertical_bounce bounce_witness_state 0 (Or.inl h)).1).trans (by decide)

/-- Claim C6: a step whose final ball x-position lies outside [−5, 5] ends
with status TERMINATED, and no step ever moves the status back from
TERMINATED to RUNNING. -/
theorem claim_C6_termination (s : GameState) (f : Frame) (delta_time : ℚ) :
    (¬((-5:ℚ) ≤ (update s delta_time).g_ball_position.x ∧
        (update s delta_time).g_ball_position.x ≤ 5) →
      (update s delta_time).g_app_status = AppStatus.TERMINATED) ∧
    (s.g_app_status = AppStatus.TERMINATED →
      (step s f).g_app_status = AppStatus.TERMINATED) := by
  constructor
  · intro h
    rw [update] at h ⊢
    generalize bounce (collide (compute_distances (integrate s delta_time))) = c at h ⊢
    rw [termination_check_g_ball_position] at h
    push_neg at h
    have hcond : c.g_ball_position.x ≥ 5 ∨ c.g_ball_position.x ≤ -5 := by
      by_cases h5 : (-5:ℚ) ≤ c.g_ball_position.x
      · exact Or.inl (le_of_lt (h h5))
      · exact Or.inr (le_of_lt (not_le.mp h5))
    rw [termination_check, if_pos hcond]
  · exact fun h => step_terminated s f h

/-- The ball placed at x = 5.2, everything else initial. -/
def terminated_witness_state : GameState :=
  { initial_state with g_ball_position := ⟨26/5, 0⟩ }

/-- The initial state with the status already TERMINATED. -/
def already_terminated_state : GameState :=
  { initial_state with g_app_status := AppStatus.TERMINATED }

unseal Rat.add Rat.sub Rat.mul Rat.inv in
/-- Witness for claim C6: a ball at x = 5.2 terminates the game after one
step, and a step from a TERMINATED state stays TERMINATED. -/
theorem claim_C6_witness :
    (¬((-5:ℚ) ≤ (update terminated_witness_state 0).g_ball_position.x ∧
        (update terminated_witness_state 0).g_ball_position.x ≤ 5) ∧
      (update terminated_witness_state 0).g_app_status = AppStatus.TERMINATED) ∧
    (step already_terminated_state frame_idle).g_app_status = AppStatus.TERMINATED := by
  have h : ¬((-5:ℚ) ≤ (update terminated_witness_state 0).g_ball_position.x ∧
      (update terminated_witness_state 0).g_ball_position.x ≤ 5) := by decide
  exact ⟨⟨h, (claim_C6_termination terminated_witness_state frame_idle 0).1 h⟩,
    (claim_C6_termination already_terminated_state frame_idle 0).2 rfl⟩

/-- Claim C7: every paddle movement component produced by the input handler
is −1, 0 or +1; a held movement key yields 0 when the stored
distance-to-bound global is at the corresponding limit; the bound test
reads only the stored distance globals, so the produced movements do not
depend on the current positions; and update re-derives those globals from
its end-of-step positions — the bound check is one frame stale. -/
theorem claim_C7_paddle_movement_invariants (s : GameState) (input : InputState)
    (delta_time : ℚ) :
    ((process_input s input).g_paddle_movement.x = 0 ∧
     ((process_input s input).g_paddle_movement.y = -1 ∨
      (process_input s input).g_paddle_movement.y = 0 ∨
      (process_input s input).g_paddle_movement.y = 1) ∧
     (process_input s input).g_right_paddle_movement.x = 0 ∧
     ((process_input s input).g_right_paddle_movement.y = -1 ∨
      (process_input s input).g_right_paddle_movement.y = 0 ∨
      (process_input s input).g_right_paddle_movement.y = 1)) ∧
    ((input.held Key.w = true → input.held Key.s = false → s.paddle_y_distance ≤ 0 →
       (process_input s input).g_paddle_movement.y = 0) ∧
     (input.held Key.s = true → s.paddle_y_distance ≥ 63/10 →
       (process_input s input).g_paddle_movement.y = 0) ∧
     (input.held Key.up = true → input.held Key.down = false →
       s.paddle_right_y_distance ≤ 0 →
       (process_input s input).g_right_paddle_movement.y = 0) ∧
     (input.held Key.down = true → s.paddle_right_y_distance ≥ 63/10 →
       (process_input s input).g_right_paddle_movement.y = 0)) ∧
    (∀ p q b : Vec2,
      (process_input
        { s with g_paddle_position := p, g_right_paddle_position := q, g_ball_position := b }
        input).g_paddle_movement = (process_input s input).g_paddle_movement ∧
      (process_input
        { s with g_paddle_position := p, g_right_paddle_position := q, g_ball_position := b }
        input).g_right_paddle_movement = (process_input s input).g_right_paddle_movement) ∧
    ((update s delta_time).paddle_y_distance =
        63/20 - (update s delta_time).g_paddle_position.y ∧
     (update s delta_time).paddle_right_y_distance =
        63/20 - (update s delta_time).g_right_paddle_position.y) := by
  refine ⟨⟨?_, ?_, ?_, ?_⟩, ⟨?_, ?_, ?_, ?_⟩, ?_, ?_, ?_⟩
  · rw [process_input_g_paddle_movement]
    split_ifs <;> rfl
  · rw [process_input_g_paddle_movement]
    split_ifs <;> norm_num
  · rw [process_input_g_right_paddle_movement]
    split_ifs <;> rfl
  · rw [process_input_g_right_paddle_movement]
    split_ifs <;> norm_num
  · intro h1 h2 h3
    simp [process_input_g_paddle_movement, h1, h2, h3]
  · intro h1 h2
    simp [process_input_g_paddle_movement, h1, h2]
  · intro h1 h2 h3
    simp [process_input_g_right_paddle_movement, h1, h2, h3]
  · intro h1 h2
    simp [process_input_g_right_paddle_movement, h1, h2]
  · intro p q b
    constructor
    · rw [process_input_g_paddle_movement, process_input_g_paddle_movement]
    · rw [process_input_g_right_paddle_movement, process_input_g_right_paddle_movement]
  · rw [update, termination_check_paddle_y_distance, bounce_paddle_y_distance,
      collide_paddle_y_distance, compute_distances_paddle_y_distance,
      termination_check_g_paddle_position, bounce_g_paddle_position,
      collide_g_paddle_position, compute_distances_g_paddle_position]
  · rw [update, termination_check_paddle_right_y_distance, bounce_paddle_right_y_distance,
      collide_paddle_right_y_distance, compute_distances_paddle_right_y_distance,
      termination_check_g_right_paddle_position, bounce_g_right_paddle_position,
      collide_g_right_paddle_position, compute_distances_g_right_paddle_position]

/-- Input with W and UP held. -/
def input_w_up : InputState := ⟨[], fun k => decide (k = Key.w ∨ k = Key.up)⟩

/-- Input with S and DOWN held. -/
def input_s_down : InputState := ⟨[], fun k => decide (k = Key.s ∨ k = Key.down)⟩

/-- Both paddles reported at the lower bound by the stored distances. -/
def paddles_low_state : GameState :=
  { initial_state with paddle_y_distance := 63/10, paddle_right_y_distance := 63/10 }

unseal Rat.add Rat.sub Rat.mul Rat.inv in
/-- Witness for claim C7: at the stored upper bound W/UP are clamped to 0,
and at the stored lower bound S/DOWN are clamped to 0. -/
theorem claim_C7_witness :
    (input_w_up.held Key.w = true ∧ input_w_up.held Key.s = false ∧
      initial_state.paddle_y_distance ≤ 0 ∧
      (process_input initial_state input_w_up).g_paddle_movement.y = 0) ∧
    (input_w_up.held Key.up = true ∧ input_w_up.held Key.down = false ∧
      initial_state.paddle_right_y_distance ≤ 0 ∧
      (process_input initial_state input_w_up).g_right_paddle_movement.y = 0) ∧
    (input_s_down.held Key.s = true ∧ paddles_low_state.paddle_y_distance ≥ 63/10 ∧
      (process_input paddles_low_state input_s_down).g_paddle_movement.y = 0) ∧
    (input_s_down.held Key.down = true ∧
      paddles_low_state.paddle_right_y_distance ≥ 63/10 ∧
      (process_input paddles_low_state input_s_down).g_right_paddle_movement.y = 0) := by
  refine ⟨⟨by decide, by decide, by decide, ?_⟩, ⟨by decide, by decide, by decide, ?_⟩,
    ⟨by decide, by decide, ?_⟩, ⟨by decide, by decide, ?_⟩⟩
  · exact (claim_C7_paddle_movement_invariants initial_state input_w_up 0).2.1.1
      (by decide) (by decide) (by decide)
  · exact (claim_C7_paddle_movement_invariants initial_state input_w_up 0).2.1.2.2.1
      (by decide) (by decide) (by decide)
  · exact (claim_C7_paddle_movement_invariants paddles_low_state input_s_down 0).2.1.2.1
      (by decide) (by decide)
  · exact (claim_C7_paddle_movement_invariants paddles_low_state input_s_down 0).2.1.2.2.2
      (by decide) (by decide)

/-- Claim C8: with AI mode enabled (toggle ≠ −1), a step moves the right
paddle by paddle-speed × delta-time toward the post-integration ball
y-position: up when the ball is above the paddle, down when below, not at
all when level. -/
theorem claim_C8_ai_tracking (s : GameState) (delta_time : ℚ)
    (hai : s.right_paddle_swtich ≠ -1) :
    (s.g_ball_position.y + s.g_ball_movement.y * s.g_ball_speed * delta_time >
        s.g_right_paddle_position.y →
      (update s delta_time).g_right_paddle_position.y =
        s.g_right_paddle_position.y + s.g_paddle_speed * delta_time) ∧
    (s.g_ball_position.y + s.g_ball_movement.y * s.g_ball_speed * delta_time <
        s.g_right_paddle_position.y →
      (update s delta_time).g_right_paddle_position.y =
        s.g_right_paddle_position.y - s.g_paddle_speed * delta_time) ∧
    (s.g_ball_position.y + s.g_ball_movement.y * s.g_ball_speed * delta_time =
        s.g_right_paddle_position.y →
      (update s delta_time).g_right_paddle_position = s.g_right_paddle_position) := by
  have hred : (update s delta_time).g_right_paddle_position =
      (integrate s delta_time).g_right_paddle_position := by
    rw [update, termination_check_g_right_paddle_position, bounce_g_right_paddle_position,
      collide_g_right_paddle_position, compute_distances_g_right_paddle_position]
  have hint : (integrate s delta_time).g_right_paddle_position =
      if s.g_ball_position.y + s.g_ball_movement.y * s.g_ball_speed * delta_time <
          s.g_right_paddle_position.y then
        ⟨s.g_right_paddle_position.x,
         s.g_right_paddle_position.y + (-1) * s.g_paddle_speed * delta_time⟩
      else if s.g_ball_position.y + s.g_ball_movement.y * s.g_ball_speed * delta_time >
          s.g_right_paddle_position.y then
        ⟨s.g_right_paddle_position.x,
         s.g_right_paddle_position.y + 1 * s.g_paddle_speed * delta_time⟩
      else s.g_right_paddle_position := by
    simp only [integrate, if_neg hai]
    split_ifs <;> rfl
  refine ⟨?_, ?_, ?_⟩
  · intro hgt
    rw [hred, hint, if_neg (asymm hgt), if_pos hgt]
    show s.g_right_paddle_position.y + 1 * s.g_paddle_speed * delta_time = _
    ring
  · intro hlt
    rw [hred, hint, if_pos hlt]
    show s.g_right_paddle_position.y + (-1) * s.g_paddle_speed * delta_time = _
    ring
  · intro heq
    rw [hred, hint, if_neg (by rw [heq]; exact lt_irrefl _),
      if_neg (by rw [heq]; exact lt_irrefl _)]

/-- AI mode on, the ball at (0, 2), the right paddle at (4, 0). -/
def ai_witness_state : GameState :=
  { initial_state with right_paddle_swtich := 1, g_ball_position := ⟨0, 2⟩ }

unseal Rat.add Rat.sub Rat.mul Rat.inv in
/-- Witness for claim C8: ball y = 2 above paddle y = 0 moves the AI paddle
up by speed × delta-time = 3. -/
theorem claim_C8_witness :
    ai_witness_state.right_paddle_swtich ≠ -1 ∧
    ai_witness_state.g_ball_position.y + ai_witness_state.g_ball_movement.y *
        ai_witness_state.g_ball_speed * 1 > ai_witness_state.g_right_paddle_position.y ∧
    (update ai_witness_state 1).g_right_paddle_position.y = 3 := by
  have hai : ai_witness_state.right_paddle_swtich ≠ -1 := by decide
  have hgt : ai_witness_state.g_ball_position.y + ai_witness_state.g_ball_movement.y *
      ai_witness_state.g_ball_speed * 1 > ai_witness_state.g_right_paddle_position.y := by
    decide
  refine ⟨hai, hgt, ?_⟩
  exact ((claim_C8_ai_tracking ai_witness_state 1 hai).1 hgt).trans (by decide)

/-- The events the poll loop of `process_input` reacts to: quit and the
T and P key-downs. -/
def is_relevant_event (e : Event) : Bool :=
  match e with
  | Event.quit => true
  | Event.keyDown Key.t => true
  | Event.keyDown Key.p => true
  | _ => false

/-- The subsequence of an event queue the poll loop reacts to. -/
def relevant_events (l : List Event) : List Event :=
  l.filter is_relevant_event

lemma process_event_irrelevant (s : GameState) (e : Event)
    (h : is_relevant_event e = false) : process_event s e = s := by
  cases e with
  | quit => simp [is_relevant_event] at h
  | keyDown k => cases k <;> first | rfl | simp [is_relevant_event] at h
  | otherEvent => rfl

lemma foldl_process_event_relevant (l : List Event) :
    ∀ s : GameState, l.foldl process_event s = (relevant_events l).foldl process_event s := by
  induction l with
  | nil => intro s; rfl
  | cons e l ih =>
    intro s
    rw [List.foldl_cons]
    by_cases h : is_relevant_event e = true
    · rw [relevant_events, List.filter_cons_of_pos h, List.foldl_cons, ih]
      rfl
    · have hf : is_relevant_event e = false := by simpa using h
      rw [process_event_irrelevant s e hf, relevant_events,
        List.filter_cons_of_neg (by simp [hf]), ih]
      rfl

/-- The input with no events and no keys held. -/
def input_no_events : InputState := ⟨[], fun _ => false⟩

/-- The input whose only content is a P key-down. -/
def input_p_down : InputState := ⟨[Event.keyDown Key.p], fun _ => false⟩

/-- The input holding only the ignored key, with one ignored event. -/
def input_other_held : InputState := ⟨[Event.otherEvent], fun k => decide (k = Key.other)⟩

unseal Rat.add Rat.sub Rat.mul Rat.inv in
/-- Counterexample to claim C9: two frames agreeing on the four movement
keys' held state, the T key-down event, the quit request, the delta time
and the prior state, but differing in the state of the P key, produce
different results: the P key-down sets the ball x-direction to −1. -/
theorem claim_C9_counterexample :
    input_no_events.held = input_p_down.held ∧
    (step initial_state ⟨input_no_events, 0⟩).g_ball_movement.x = 0 ∧
    (step initial_state ⟨input_p_down, 0⟩).g_ball_movement.x = -1 := by
  exact ⟨rfl, by decide, by decide⟩

/-- Claim C9 as amended: the step result depends only on the held state of
the four movement keys, the T (mode-toggle) and P (ball-launch) key-down
events, the quit event, the delta time and the prior state; every other
key's held state and every other event are irrelevant. -/
theorem claim_C9_amended_noninterference (s : GameState) (i1 i2 : InputState)
    (delta_time : ℚ)
    (hev : relevant_events i1.events = relevant_events i2.events)
    (hw : i1.held Key.w = i2.held Key.w) (hs : i1.held Key.s = i2.held Key.s)
    (hu : i1.held Key.up = i2.held Key.up) (hd : i1.held Key.down = i2.held Key.down) :
    step s ⟨i1, delta_time⟩ = step s ⟨i2, delta_time⟩ := by
  have hfold : i1.events.foldl process_event s = i2.events.foldl process_event s := by
    rw [foldl_process_event_relevant, hev, ← foldl_process_event_relevant]
  have hheld : process_held (i1.events.foldl process_event s) i1.held =
      process_held (i2.events.foldl process_event s) i2.held := by
    rw [hfold]
    simp only [process_held, hw, hs, hu, hd]
  show update (process_input s i1) delta_time = update (process_input s i2) delta_time
  rw [process_input, process_input, hheld]

unseal Rat.add Rat.sub Rat.mul Rat.inv in
/-- Witness for the amended claim C9: an ignored held key and an ignored
event do not change the step result. -/
theorem claim_C9_witness :
    relevant_events input_other_held.events = relevant_events input_no_events.events ∧
    input_other_held.held Key.w = input_no_events.held Key.w ∧
    input_other_held.held Key.s = input_no_events.held Key.s ∧
    input_other_held.held Key.up = input_no_events.held Key.up ∧
    input_other_held.held Key.down = input_no_events.held Key.down ∧
    step initial_state ⟨input_other_held, 0⟩ = step initial_state ⟨input_no_events, 0⟩ := by
  refine ⟨by decide, by decide, by decide, by decide, by decide, ?_⟩
  exact claim_C9_amended_noninterference initial_state input_other_held input_no_events 0
    (by decide) (by decide) (by decide) (by decide) (by decide)

/-- Claim C10 (implicit): in AI mode, a right-paddle collision takes the
ball y-direction from the key-driven right-paddle movement vector; with no
arrow key held that vector is zero, so the collision leaves the ball
y-direction unchanged even though the AI paddle tracks the ball. -/
theorem claim_C10_ai_collision_key_movement (s : GameState) (input : InputState)
    (delta_time : ℚ)
    (hai : s.right_paddle_swtich ≠ -1)
    (hup : input.held Key.up = false) (hdown : input.held Key.down = false)
    (hleft : ¬((pre_collide s ⟨input, delta_time⟩).paddle_ball_x_distance ≤ 0 ∧
               (pre_collide s ⟨input, delta_time⟩).paddle_ball_y_distance ≤ 0))
    (hrx : (pre_collide s ⟨input, delta_time⟩).right_paddle_ball_x_distance ≤ 0)
    (hry : (pre_collide s ⟨input, delta_time⟩).right_paddle_ball_y_distance ≤ 0) :
    (collide (pre_collide s ⟨input, delta_time⟩)).g_ball_movement.y =
      s.g_ball_movement.y ∧
    (collide (pre_collide s ⟨input, delta_time⟩)).g_ball_movement.x = -1 := by
  have hmov : (pre_collide s ⟨input, delta_time⟩).g_right_paddle_movement = ⟨0, 0⟩ := by
    rw [pre_collide]
    show (integrate (process_input s input) delta_time).g_right_paddle_movement = _
    rw [integrate_g_right_paddle_movement, process_input_g_right_paddle_movement, hup, hdown]
    simp
  have hbmy : (pre_collide s ⟨input, delta_time⟩).g_ball_movement.y =
      s.g_ball_movement.y := by
    rw [pre_collide]
    show (integrate (process_input s input) delta_time).g_ball_movement.y = _
    rw [integrate_g_ball_movement, process_input_g_ball_movement_y]
  refine ⟨?_, ?_⟩ <;>
    norm_num [collide, if_neg hleft, if_pos (And.intro hrx hry), hmov, hbmy]

/-- AI mode on, the ball overlapping the right paddle after integration. -/
def ai_collision_state : GameState :=
  { initial_state with right_paddle_swtich := 1, g_ball_position := ⟨4, 1⟩ }

unseal Rat.add Rat.sub Rat.mul Rat.inv in
/-- Witness for claim C10: with no arrow key held, a right-paddle collision
in AI mode keeps the ball y-direction while the AI paddle has moved. -/
theorem claim_C10_witness :
    ai_collision_state.right_paddle_swtich ≠ -1 ∧
    input_no_events.held Key.up = false ∧
    input_no_events.held Key.down = false ∧
    ¬((pre_collide ai_collision_state ⟨input_no_events, 1/2⟩).paddle_ball_x_distance ≤ 0 ∧
      (pre_collide ai_collision_state ⟨input_no_events, 1/2⟩).paddle_ball_y_distance ≤ 0) ∧
    (pre_collide ai_collision_state ⟨input_no_events, 1/2⟩).right_paddle_ball_x_distance ≤ 0 ∧
    (pre_collide ai_collision_state ⟨input_no_events, 1/2⟩).right_paddle_ball_y_distance ≤ 0 ∧
    (pre_collide ai_collision_state ⟨input_no_events, 1/2⟩).g_right_paddle_position.y =
      3/2 ∧
    (collide (pre_collide ai_collision_state ⟨input_no_events, 1/2⟩)).g_ball_movement.y =
      ai_collision_state.g_ball_movement.y ∧
    (collide (pre_collide ai_collision_state ⟨input_no_events, 1/2⟩)).g_ball_movement.x =
      -1 := by
  refine ⟨by decide, rfl, rfl, by decide, by decide, by decide, by decide, ?_, ?_⟩
  · exact (claim_C10_ai_collision_key_movement ai_collision_state input_no_events (1/2)
      (by decide) rfl rfl (by decide) (by decide) (by decide)).1
  · exact (claim_C10_ai_collision_key_movement ai_collision_state input_no_events (1/2)
      (by decide) rfl rfl (by decide) (by decide) (by decide)).2

end Pong
